import Mathlib

/-!
Verification development for the `sketched` application (`src/main.rs`).

The program is a single render loop: every frame it polls window events,
updates input state (cursor position, left-button flag, resize flag),
appends a drag point when the button is down and a fresh cursor position
arrived, reacquires the back buffer on resize, renders a fixed two-triangle
mesh, and on render success swaps buffers and prints the accumulated points.

The embedding below mirrors `main.rs` line by line.  `f64` coordinates are
modelled as `ℚ` (the program never computes with them, it only compares them
for equality against the sentinel `(-1, -1)`); fallible collaborator calls
(`expect`/`unwrap` sites and the render-pass result) are modelled by boolean
oracles passed in as frame inputs, with `Option` capturing `unwrap` panics.
-/

namespace Sketched

/-- GLFW keys as far as the program distinguishes them: `main.rs` only
matches `Key::Escape`; every other key falls into the catch-all arm. -/
inductive Key where
  | Escape
  | OtherKey
  deriving DecidableEq, Repr

/-- `glfw::Action` (line 1 import): `Press`, `Release`, `Repeat`. -/
inductive Action where
  | Press
  | Release
  | Repeat
  deriving DecidableEq, Repr

/-- `glfw::MouseButton`: the eight GLFW mouse buttons.  `main.rs` line 150
compares against `MouseButton::Button1`. -/
inductive MouseButton where
  | Button1
  | Button2
  | Button3
  | Button4
  | Button5
  | Button6
  | Button7
  | Button8
  deriving DecidableEq, Repr

/-- `glfw::WindowEvent`, restricted to the variants the match on
lines 134-162 distinguishes; `Other` stands for all the remaining
variants, which hit the `_ => ()` arm.  Scancodes and modifier bitmasks
are opaque to the program and modelled as `Nat`. -/
inductive WindowEvent where
  | Close
  | Key (k : Key) (scancode : Int) (a : Action) (mods : Nat)
  | FramebufferSize (w h : Int)
  | CursorPos (x y : ℚ)
  | MouseButton (b : MouseButton) (a : Action) (mods : Nat)
  | Other
  deriving DecidableEq, Repr

/-- The mutable locals read and written by the event loop of one frame:
`cursor_position` (line 129), `left_button_pressed` (line 126) and
`resize` (line 124). -/
@[ext]
structure InputState where
  cursor_position : ℚ × ℚ
  left_button_pressed : Bool
  resize : Bool
  deriving DecidableEq, Repr

/-- The sentinel `(-1.0, -1.0)` that `cursor_position` is reset to at the
start of every frame (line 129) and compared against on line 166. -/
def sentinel : ℚ × ℚ := (-1, -1)

/-- Whether an event hits the `break 'app` arm on line 136:
`WindowEvent::Close | WindowEvent::Key(Key::Escape, _, Action::Release, _)`. -/
def isTerminate : WindowEvent → Bool
  | .Close => true
  | .Key .Escape _ .Release _ => true
  | _ => false

/-- Effect of one non-terminating event on the state, the arms on
lines 139-161: `FramebufferSize` sets `resize`; `CursorPos` overwrites
`cursor_position`; `MouseButton` for `Button1` sets/clears
`left_button_pressed` on `Press`/`Release` (other buttons `continue`,
other actions fall to `_ => ()`); everything else is a no-op. -/
def applyEvent (s : InputState) : WindowEvent → InputState
  | .FramebufferSize _ _ => { s with resize := true }
  | .CursorPos x y => { s with cursor_position := (x, y) }
  | .MouseButton b a _ =>
      if b ≠ MouseButton.Button1 then s
      else
        match a with
        | .Press => { s with left_button_pressed := true }
        | .Release => { s with left_button_pressed := false }
        | .Repeat => s
  | _ => s

/-- The `for (_, event) in glfw::flush_messages(..)` loop, lines 133-163.
Returns the state after processing together with the quit flag: a
terminating event executes `break 'app` at once, so the remaining events
of the batch are never examined. -/
def processEvents : InputState → List WindowEvent → InputState × Bool
  | s, [] => (s, false)
  | s, e :: es =>
      if isTerminate e then (s, true) else processEvents (applyEvent s e) es

/-- The loop-carried state of `main`: `points` (line 125),
`left_button_pressed` (line 126) and `resize` (line 124); the back-buffer
handle itself carries no observable data, so only its reacquisitions are
tracked per frame in `FrameEffects`. -/
@[ext]
structure LoopState where
  points : List (ℚ × ℚ)
  left_button_pressed : Bool
  resize : Bool
  deriving DecidableEq, Repr

/-- Observable effects of one frame: how many times the back buffer was
reacquired (line 172), whether a render pass was issued (lines 178-193),
whether `swap_buffers` ran (line 198), and what `println!` printed
(line 199), if anything. -/
@[ext]
structure FrameEffects where
  reacquired : Nat
  rendered : Bool
  swapped : Bool
  emitted : Option (List (ℚ × ℚ))
  deriving DecidableEq, Repr

/-- Environment inputs of one frame: the drained event batch, whether the
mid-loop `surface.back_buffer()` call (line 172) would succeed, and whether
the render pass (lines 178-193) reports `Ok`. -/
structure FrameInput where
  events : List WindowEvent
  reacquireOk : Bool
  renderOk : Bool
  deriving DecidableEq, Repr

/-- Lines 197-202: on render success, swap buffers, print the points and
continue; on failure, `break 'app` (continue flag `false`). -/
def frameRender (s : LoopState) (reacq : Nat) (renderOk : Bool) :
    Option (LoopState × FrameEffects × Bool) :=
  if renderOk then some (s, ⟨reacq, true, true, some s.points⟩, true)
  else some (s, ⟨reacq, true, false, none⟩, false)

/-- One iteration of the `'app: loop`, lines 128-203.  Returns `none` when
the iteration panics (the `unwrap` on line 172 fails), otherwise the new
loop state, the frame's effects, and whether the loop continues.
Mirrors the source order: reset cursor to the sentinel, process events
(a terminating event breaks out before the point/resize/render steps),
append the point when the button is down and the cursor is fresh
(lines 166-168), consume the resize flag by reacquiring the back buffer
(lines 170-174), then render and swap (lines 178-202). -/
def runFrame (s : LoopState) (f : FrameInput) :
    Option (LoopState × FrameEffects × Bool) :=
  let r := processEvents ⟨sentinel, s.left_button_pressed, s.resize⟩ f.events
  let st := r.1
  if r.2 then
    some (⟨s.points, st.left_button_pressed, st.resize⟩, ⟨0, false, false, none⟩, false)
  else
    let points' :=
      if st.left_button_pressed = true ∧ st.cursor_position ≠ sentinel then
        s.points ++ [st.cursor_position]
      else s.points
    if st.resize then
      if f.reacquireOk then
        frameRender ⟨points', st.left_button_pressed, false⟩ 1 f.renderOk
      else none
    else frameRender ⟨points', st.left_button_pressed, st.resize⟩ 0 f.renderOk

/-- Whether the modelled run of the loop stopped because a frame broke out
(`terminated`) or because the supplied list of frame inputs ran out while
the loop was still going (`running`, a model artifact: the real loop only
stops by breaking out). -/
inductive LoopStatus where
  | running
  | terminated
  deriving DecidableEq, Repr

/-- The `'app: loop` driven by a finite list of frame inputs.  `none`
propagates a frame panic. -/
def runLoop : LoopState → List FrameInput → Option (LoopState × LoopStatus)
  | s, [] => some (s, .running)
  | s, f :: fs =>
      match runFrame s f with
      | none => none
      | some (s', _, cont) =>
          if cont then runLoop s' fs else some (s', .terminated)

/-- How the process ends: `normalExit` is `main` returning (status 0);
`panicAbort` is a Rust panic from `expect`/`unwrap` (nonzero status, 101
by the Rust runtime convention). -/
inductive ExitStatus where
  | normalExit
  | panicAbort
  deriving DecidableEq, Repr

/-- Process exit code for each way the process ends. -/
def exitCode : ExitStatus → Nat
  | .normalExit => 0
  | .panicAbort => 101

/-- `main`, lines 89-204: surface creation (`expect`, line 99), shader
program build (`expect`, line 107), tessellation build (`unwrap`,
line 119) and initial back-buffer acquisition (`unwrap`, line 123) each
panic on failure; then the loop runs from empty points, button up and no
pending resize, and any `break 'app` lets `main` return normally. -/
def mainRun (surfaceOk programOk meshOk backBufferOk : Bool)
    (frames : List FrameInput) : ExitStatus :=
  if surfaceOk = true ∧ programOk = true ∧ meshOk = true ∧ backBufferOk = true then
    match runLoop ⟨[], false, false⟩ frames with
    | none => .panicAbort
    | some _ => .normalExit
  else .panicAbort

/-- A vertex as declared on lines 40-51: a position (`[f32; 2]`) and an
`[u8; 3]` colour. -/
structure Vertex where
  pos : ℚ × ℚ
  rgb : Nat × Nat × Nat
  deriving DecidableEq, Repr

/-- `TRI_VERTICES`, lines 54-81: the six vertices of the two triangles. -/
def TRI_VERTICES : List Vertex :=
  [⟨(1/2, -1/2), (0, 255, 0)⟩,
   ⟨(0, 1/2), (0, 0, 255)⟩,
   ⟨(-1/2, -1/2), (255, 0, 0)⟩,
   ⟨(-1/2, 1/2), (255, 51, 255)⟩,
   ⟨(0, -1/2), (51, 255, 255)⟩,
   ⟨(1/2, 1/2), (51, 51, 255)⟩]

/-- `TRI_INDICES`, lines 84-87: the `u8` index buffer. -/
def TRI_INDICES : List Nat := [0, 1, 2, 3, 4, 5]

/-- Number of triangles described by an index list under `Mode::Triangle`
(line 117): consecutive triples of indices. -/
def numTriangles (indices : List Nat) : Nat := indices.length / 3

/-! ### Derived characterizations of one frame's event batch

These express the post-processing state in terms of the raw event list
(last `CursorPos`, last primary-button `Press`/`Release`, presence of a
`FramebufferSize`), independently of the step-by-step state machine. -/

/-- Whether an event is a `FramebufferSize` (resize) event. -/
def isResizeEvt : WindowEvent → Bool
  | .FramebufferSize _ _ => true
  | _ => false

/-- Whether an event is a `CursorPos` event. -/
def isCursorEvt : WindowEvent → Bool
  | .CursorPos _ _ => true
  | _ => false

/-- Position carried by the last `CursorPos` event of the list, or the
default `d` when the list has none. -/
def lastCursorD (es : List WindowEvent) (d : ℚ × ℚ) : ℚ × ℚ :=
  es.foldl (fun acc e => match e with | .CursorPos x y => (x, y) | _ => acc) d

/-- Button state dictated by the last primary-button `Press`/`Release`
event of the list (`true` for `Press`, `false` for `Release`), or the
default `d` when the list has none. -/
def lastPrimaryD (es : List WindowEvent) (d : Bool) : Bool :=
  es.foldl
    (fun acc e =>
      match e with
      | .MouseButton .Button1 .Press _ => true
      | .MouseButton .Button1 .Release _ => false
      | _ => acc)
    d

/-- The button state after one frame's event processing, as a function of
the raw batch. -/
def frameButton (s : LoopState) (f : FrameInput) : Bool :=
  lastPrimaryD f.events s.left_button_pressed

/-- The cursor position after one frame's event processing: the last
`CursorPos` of the batch, or the sentinel after the per-frame reset. -/
def frameCursor (f : FrameInput) : ℚ × ℚ :=
  lastCursorD f.events sentinel

/-- The points list after one frame that reaches the append step. -/
def framePoints (s : LoopState) (f : FrameInput) : List (ℚ × ℚ) :=
  if frameButton s f = true ∧ frameCursor f ≠ sentinel then
    s.points ++ [frameCursor f]
  else s.points

/-- The resize flag after one frame's event processing. -/
def frameResize (s : LoopState) (f : FrameInput) : Bool :=
  s.resize || f.events.any isResizeEvt

/-! ### Lemmas about event processing -/

theorem applyEvent_cursor (s : InputState) (e : WindowEvent) :
    (applyEvent s e).cursor_position =
      (match e with | .CursorPos x y => (x, y) | _ => s.cursor_position) := by
  cases e with
  | MouseButton b a m => cases b <;> cases a <;> rfl
  | _ => rfl

theorem applyEvent_button (s : InputState) (e : WindowEvent) :
    (applyEvent s e).left_button_pressed =
      (match e with
       | .MouseButton .Button1 .Press _ => true
       | .MouseButton .Button1 .Release _ => false
       | _ => s.left_button_pressed) := by
  cases e with
  | MouseButton b a m => cases b <;> cases a <;> rfl
  | _ => rfl

theorem applyEvent_resize (s : InputState) (e : WindowEvent) :
    (applyEvent s e).resize = (s.resize || isResizeEvt e) := by
  cases e with
  | MouseButton b a m => cases b <;> cases a <;> simp [applyEvent, isResizeEvt]
  | FramebufferSize w h => simp [applyEvent, isResizeEvt]
  | _ => simp [applyEvent, isResizeEvt]

theorem foldl_applyEvent_cursor (es : List WindowEvent) (s : InputState) :
    (es.foldl applyEvent s).cursor_position = lastCursorD es s.cursor_position := by
  induction es generalizing s with
  | nil => rfl
  | cons e es ih =>
      rw [List.foldl_cons, ih]
      simp only [lastCursorD, List.foldl_cons]
      rw [applyEvent_cursor]

theorem foldl_applyEvent_button (es : List WindowEvent) (s : InputState) :
    (es.foldl applyEvent s).left_button_pressed =
      lastPrimaryD es s.left_button_pressed := by
  induction es generalizing s with
  | nil => rfl
  | cons e es ih =>
      rw [List.foldl_cons, ih]
      simp only [lastPrimaryD, List.foldl_cons]
      rw [applyEvent_button]

theorem foldl_applyEvent_resize (es : List WindowEvent) (s : InputState) :
    (es.foldl applyEvent s).resize = (s.resize || es.any isResizeEvt) := by
  induction es generalizing s with
  | nil => simp
  | cons e es ih =>
      rw [List.foldl_cons, ih, applyEvent_resize, List.any_cons]
      cases s.resize <;> cases isResizeEvt e <;> simp

theorem lastCursorD_of_no_cursor (es : List WindowEvent) (d : ℚ × ℚ)
    (h : es.any isCursorEvt = false) : lastCursorD es d = d := by
  induction es generalizing d with
  | nil => rfl
  | cons e es ih =>
      rw [List.any_cons] at h
      simp only [Bool.or_eq_false_iff] at h
      simp only [lastCursorD, List.foldl_cons]
      cases e with
      | CursorPos x y => simp [isCursorEvt] at h
      | _ => exact ih d h.2

/-- With no terminating event in the batch, `processEvents` just folds
`applyEvent` over the batch and reports no quit. -/
theorem processEvents_no_terminate (es : List WindowEvent) (s : InputState)
    (h : ∀ e ∈ es, isTerminate e = false) :
    processEvents s es = (es.foldl applyEvent s, false) := by
  induction es generalizing s with
  | nil => rfl
  | cons e es ih =>
      have he : isTerminate e = false := h e (List.mem_cons_self e es)
      simp only [processEvents, he, Bool.false_eq_true, if_false, List.foldl_cons]
      exact ih (applyEvent s e) fun x hx => h x (List.mem_cons_of_mem e hx)

/-- The first terminating event stops processing at once: the state is the
fold over the events before it, the quit flag is set, and the events after
it are never examined. -/
theorem processEvents_terminate (es1 es2 : List WindowEvent) (e : WindowEvent)
    (s : InputState)
    (h1 : ∀ x ∈ es1, isTerminate x = false) (h2 : isTerminate e = true) :
    processEvents s (es1 ++ e :: es2) = (es1.foldl applyEvent s, true) := by
  induction es1 generalizing s with
  | nil => simp [processEvents, h2]
  | cons x xs ih =>
      have hx : isTerminate x = false := h1 x (List.mem_cons_self x xs)
      simp only [List.cons_append, processEvents, hx, Bool.false_eq_true, if_false,
        List.foldl_cons]
      exact ih (applyEvent s x) fun y hy => h1 y (List.mem_cons_of_mem x hy)

/-- If some event of the batch is terminating, processing reports quit. -/
theorem processEvents_quit (es : List WindowEvent) (s : InputState)
    (h : ∃ e ∈ es, isTerminate e = true) : (processEvents s es).2 = true := by
  induction es generalizing s with
  | nil => simp at h
  | cons e es ih =>
      by_cases he : isTerminate e = true
      · simp [processEvents, he]
      · simp only [processEvents]
        rw [if_neg he]
        obtain ⟨x, hx, hxt⟩ := h
        rcases List.mem_cons.mp hx with rfl | hx'
        · exact absurd hxt he
        · exact ih (applyEvent s e) ⟨x, hx', hxt⟩

/-! ### Lemmas about one frame -/

/-- `frameRender` in closed form: exactly one render pass is issued, the
swap, the print and the continue flag all follow the pass result, and the
loop state is returned unchanged. -/
theorem frameRender_eq (s : LoopState) (reacq : Nat) (renderOk : Bool) :
    frameRender s reacq renderOk =
      some (s, ⟨reacq, true, renderOk, if renderOk = true then some s.points else none⟩,
        renderOk) := by
  cases renderOk <;> rfl

/-- A frame whose batch holds a terminating event: the loop breaks with
the points untouched, the input state frozen at the moment the event was
matched, no reacquisition, no render pass, no swap, no print. -/
theorem runFrame_quit (s : LoopState) (f : FrameInput)
    (h : (processEvents ⟨sentinel, s.left_button_pressed, s.resize⟩ f.events).2 = true) :
    runFrame s f =
      some (⟨s.points,
             (processEvents ⟨sentinel, s.left_button_pressed, s.resize⟩ f.events).1.left_button_pressed,
             (processEvents ⟨sentinel, s.left_button_pressed, s.resize⟩ f.events).1.resize⟩,
            ⟨0, false, false, none⟩, false) := by
  simp only [runFrame, h, if_true]

/-- A frame with no terminating event in its batch, in closed form over
the raw batch. -/
theorem runFrame_no_term (s : LoopState) (f : FrameInput)
    (h : ∀ e ∈ f.events, isTerminate e = false) :
    runFrame s f =
      (if frameResize s f = true then
        if f.reacquireOk = true then
          frameRender ⟨framePoints s f, frameButton s f, false⟩ 1 f.renderOk
        else none
       else frameRender ⟨framePoints s f, frameButton s f, false⟩ 0 f.renderOk) := by
  have hp := processEvents_no_terminate f.events
    ⟨sentinel, s.left_button_pressed, s.resize⟩ h
  have hc := foldl_applyEvent_cursor f.events ⟨sentinel, s.left_button_pressed, s.resize⟩
  have hb := foldl_applyEvent_button f.events ⟨sentinel, s.left_button_pressed, s.resize⟩
  have hr := foldl_applyEvent_resize f.events ⟨sentinel, s.left_button_pressed, s.resize⟩
  simp only [runFrame, hp, Bool.false_eq_true, if_false, hc, hb, hr]
  simp only [frameResize, framePoints, frameButton, frameCursor]
  cases hx : (s.resize || f.events.any isResizeEvt) <;> simp

/-- A frame with no terminating event and a healthy back buffer, fully
evaluated: the points, button and resize fields of the new state, the
reacquisition count, the mandatory render pass, and the swap/print/continue
flags as functions of the render result. -/
theorem runFrame_render (s : LoopState) (f : FrameInput)
    (h : ∀ e ∈ f.events, isTerminate e = false) (hra : f.reacquireOk = true) :
    runFrame s f =
      some (⟨framePoints s f, frameButton s f, false⟩,
            ⟨if frameResize s f = true then 1 else 0, true, f.renderOk,
             if f.renderOk = true then some (framePoints s f) else none⟩,
            f.renderOk) := by
  rw [runFrame_no_term s f h, hra]
  by_cases hres : frameResize s f = true
  · simp only [hres, if_true, frameRender_eq]
  · simp only [hres, if_false, frameRender_eq]
    simp only [Bool.not_eq_true] at hres
    simp [hres]

/-- Every frame that does not panic leaves the previous points as a prefix
of the new points. -/
theorem runFrame_points_mono (s : LoopState) (f : FrameInput)
    (s' : LoopState) (eff : FrameEffects) (cont : Bool)
    (h : runFrame s f = some (s', eff, cont)) :
    ∃ t, s'.points = s.points ++ t := by
  by_cases hq :
      (processEvents ⟨sentinel, s.left_button_pressed, s.resize⟩ f.events).2 = true
  · rw [runFrame_quit s f hq] at h
    obtain ⟨h1, -⟩ := Prod.mk.injEq _ _ _ _ ▸ Option.some.inj h
    exact ⟨[], by rw [← h1]; simp⟩
  · have hterm : ∀ e ∈ f.events, isTerminate e = false := by
      intro e he
      by_contra habs
      exact hq (processEvents_quit f.events _ ⟨e, he, eq_true_of_ne_false habs⟩)
    rw [runFrame_no_term s f hterm] at h
    by_cases hres : frameResize s f = true
    · rw [if_pos hres] at h
      by_cases hra : f.reacquireOk = true
      · rw [if_pos hra, frameRender_eq] at h
        obtain ⟨h1, -⟩ := Prod.mk.injEq _ _ _ _ ▸ Option.some.inj h
        rw [← h1]
        simp only [framePoints]
        by_cases hc : frameButton s f = true ∧ frameCursor f ≠ sentinel
        · exact ⟨[frameCursor f], by rw [if_pos hc]⟩
        · exact ⟨[], by rw [if_neg hc]; simp⟩
      · rw [if_neg hra] at h
        exact absurd h (by simp)
    · rw [if_neg hres, frameRender_eq] at h
      obtain ⟨h1, -⟩ := Prod.mk.injEq _ _ _ _ ▸ Option.some.inj h
      rw [← h1]
      simp only [framePoints]
      by_cases hc : frameButton s f = true ∧ frameCursor f ≠ sentinel
      · exact ⟨[frameCursor f], by rw [if_pos hc]⟩
      · exact ⟨[], by rw [if_neg hc]; simp⟩

/-! ### The claims -/

/-- C8: the static mesh data consists of exactly 6 vertices and exactly 6
unsigned 8-bit indices (each fits in a `u8`) grouped in two triples, so it
describes exactly 2 triangles under the triangle-list topology, and every
index is strictly below the vertex count 6. -/
theorem mesh_data_wellformed :
    TRI_VERTICES.length = 6 ∧ TRI_INDICES.length = 6 ∧
    (∀ i ∈ TRI_INDICES, i < 256) ∧ numTriangles TRI_INDICES = 2 ∧
    (∀ i ∈ TRI_INDICES, i < TRI_VERTICES.length) := by
  have hv : TRI_VERTICES.length = 6 := rfl
  refine ⟨hv, rfl, by decide, rfl, ?_⟩
  simp only [hv]
  decide

/-- A batch of MouseButton events holds no CursorPos event. -/
theorem mouse_events_no_cursor (bs : List (MouseButton × Action × Nat)) :
    (bs.map fun x => WindowEvent.MouseButton x.1 x.2.1 x.2.2).any
      isCursorEvt = false := by
  induction bs with
  | nil => rfl
  | cons b bs ih => simpa [isCursorEvt] using ih

/-- A batch of MouseButton events holds no FramebufferSize event. -/
theorem mouse_events_no_resize (bs : List (MouseButton × Action × Nat)) :
    (bs.map fun x => WindowEvent.MouseButton x.1 x.2.1 x.2.2).any
      isResizeEvt = false := by
  induction bs with
  | nil => rfl
  | cons b bs ih => simpa [isResizeEvt] using ih

/-- C2: a batch consisting solely of MouseButton events never quits the
loop, leaves the cursor and resize fields untouched, and afterwards
`left_button_pressed` equals the action of the most recent primary-button
Press/Release event (`true` for Press, `false` for Release), unchanged
when there is none; events for other buttons, and primary-button actions
other than Press/Release, contribute nothing. -/
theorem mouse_button_last_event_wins (s : InputState)
    (bs : List (MouseButton × Action × Nat)) :
    processEvents s (bs.map fun x => WindowEvent.MouseButton x.1 x.2.1 x.2.2) =
      (⟨s.cursor_position,
        lastPrimaryD (bs.map fun x => WindowEvent.MouseButton x.1 x.2.1 x.2.2)
          s.left_button_pressed,
        s.resize⟩, false) := by
  have hterm : ∀ e ∈ bs.map (fun x => WindowEvent.MouseButton x.1 x.2.1 x.2.2),
      isTerminate e = false := by
    intro e he
    obtain ⟨x, -, rfl⟩ := List.mem_map.mp he
    rfl
  have hnc := mouse_events_no_cursor bs
  have hnr := mouse_events_no_resize bs
  rw [processEvents_no_terminate _ _ hterm]
  refine Prod.ext ?_ rfl
  refine InputState.ext ?_ ?_ ?_
  · rw [foldl_applyEvent_cursor, lastCursorD_of_no_cursor _ _ hnc]
  · rw [foldl_applyEvent_button]
  · rw [foldl_applyEvent_resize, hnr, Bool.or_false]

/-- C1: in a frame whose batch holds no terminating event and whose back
buffer is healthy, the frame completes, and a point is appended iff
`left_button_pressed` is true after event processing and the cursor
differs from the sentinel; the cursor after processing is the position of
the last CursorPos event of the batch (the sentinel when none arrived,
because of the per-frame reset), so the appended point is that last
position, and a frame with the button held but no CursorPos event appends
nothing. -/
theorem point_appended_iff (s : LoopState) (f : FrameInput)
    (hterm : ∀ e ∈ f.events, isTerminate e = false) (hra : f.reacquireOk = true) :
    ∃ s' eff cont, runFrame s f = some (s', eff, cont) ∧
      s'.left_button_pressed = lastPrimaryD f.events s.left_button_pressed ∧
      s'.points =
        (if s'.left_button_pressed = true ∧ lastCursorD f.events sentinel ≠ sentinel then
          s.points ++ [lastCursorD f.events sentinel]
         else s.points) ∧
      (f.events.any isCursorEvt = false → s'.points = s.points) := by
  refine ⟨_, _, _, runFrame_render s f hterm hra, rfl, rfl, ?_⟩
  intro hnc
  show framePoints s f = s.points
  have hcur : frameCursor f = sentinel := lastCursorD_of_no_cursor f.events sentinel hnc
  simp [framePoints, hcur]

/-- Witness for C1: a single `CursorPos (10, 20)` event with the button
already held appends exactly the point `(10, 20)`. -/
theorem point_appended_iff_witness :
    ∃ s' eff cont,
      runFrame ⟨[], true, false⟩ ⟨[WindowEvent.CursorPos 10 20], true, true⟩ =
        some (s', eff, cont) ∧
      s'.left_button_pressed = lastPrimaryD [WindowEvent.CursorPos 10 20] true ∧
      s'.points =
        (if s'.left_button_pressed = true ∧
            lastCursorD [WindowEvent.CursorPos 10 20] sentinel ≠ sentinel then
          ([] : List (ℚ × ℚ)) ++ [lastCursorD [WindowEvent.CursorPos 10 20] sentinel]
         else ([] : List (ℚ × ℚ))) ∧
      ([WindowEvent.CursorPos 10 20].any isCursorEvt = false →
        s'.points = ([] : List (ℚ × ℚ))) :=
  point_appended_iff ⟨[], true, false⟩ ⟨[WindowEvent.CursorPos 10 20], true, true⟩
    (by decide) rfl

/-- C3: a frame whose batch holds a Close or Escape-release event breaks
out of the loop on that same frame: no back-buffer reacquisition, no
render pass, no swap, no print, and the continue flag is false whatever
the other events of the batch are. -/
theorem close_or_escape_quits (s : LoopState) (f : FrameInput)
    (h : ∃ e ∈ f.events, isTerminate e = true) :
    ∃ s', runFrame s f = some (s', ⟨0, false, false, none⟩, false) :=
  ⟨_, runFrame_quit s f (processEvents_quit f.events _ h)⟩

/-- Witness for C3: a lone Close event quits without rendering. -/
theorem close_or_escape_quits_witness :
    ∃ s', runFrame ⟨[], false, false⟩ ⟨[WindowEvent.Close], true, true⟩ =
      some (s', ⟨0, false, false, none⟩, false) :=
  close_or_escape_quits ⟨[], false, false⟩ ⟨[WindowEvent.Close], true, true⟩
    ⟨WindowEvent.Close, by simp, rfl⟩

/-- C4: in a frame that reaches the render step (no terminating event,
healthy back buffer), exactly one render pass is issued; `swap_buffers`
runs and the accumulated points are printed iff the pass reports success,
and on failure the continue flag is false — the loop stops without
retrying the frame. -/
theorem swap_and_emit_iff_render_ok (s : LoopState) (f : FrameInput)
    (hterm : ∀ e ∈ f.events, isTerminate e = false) (hra : f.reacquireOk = true) :
    ∃ s' eff cont, runFrame s f = some (s', eff, cont) ∧
      eff.rendered = true ∧ eff.swapped = f.renderOk ∧
      eff.emitted = (if f.renderOk = true then some s'.points else none) ∧
      cont = f.renderOk :=
  ⟨_, _, _, runFrame_render s f hterm hra, rfl, rfl, rfl, rfl⟩

/-- Witness for C4: an eventless frame whose render pass fails issues the
pass but neither swaps nor prints, and stops the loop. -/
theorem swap_and_emit_iff_render_ok_witness :
    ∃ s' eff cont,
      runFrame ⟨[], false, false⟩ ⟨[], true, false⟩ = some (s', eff, cont) ∧
      eff.rendered = true ∧ eff.swapped = false ∧
      eff.emitted = (if false = true then some s'.points else none) ∧
      cont = false :=
  swap_and_emit_iff_render_ok ⟨[], false, false⟩ ⟨[], true, false⟩
    (by decide) rfl

/-- C6: starting a frame with the resize flag down (as every reachable
frame does), any number of FramebufferSize events in the batch causes
exactly one back-buffer reacquisition when that number is positive and
none when it is zero, and the flag is down again once consumed. -/
theorem resize_events_absorbed (s : LoopState) (f : FrameInput)
    (hterm : ∀ e ∈ f.events, isTerminate e = false)
    (hres : s.resize = false) (hra : f.reacquireOk = true) :
    ∃ s' eff cont, runFrame s f = some (s', eff, cont) ∧
      eff.reacquired = (if f.events.any isResizeEvt = true then 1 else 0) ∧
      s'.resize = false := by
  refine ⟨_, _, _, runFrame_render s f hterm hra, ?_, rfl⟩
  show (if frameResize s f = true then 1 else 0) = _
  simp [frameResize, hres]

/-- Witness for C6: two FramebufferSize events in one frame cause exactly
one reacquisition. -/
theorem resize_events_absorbed_witness :
    ∃ s' eff cont,
      runFrame ⟨[], false, false⟩
          ⟨[WindowEvent.FramebufferSize 10 10, WindowEvent.FramebufferSize 20 20],
            true, true⟩ = some (s', eff, cont) ∧
      eff.reacquired =
        (if ([WindowEvent.FramebufferSize 10 10,
              WindowEvent.FramebufferSize 20 20]).any isResizeEvt = true then 1
         else 0) ∧
      s'.resize = false :=
  resize_events_absorbed ⟨[], false, false⟩
    ⟨[WindowEvent.FramebufferSize 10 10, WindowEvent.FramebufferSize 20 20],
      true, true⟩ (by decide) rfl rfl

/-- C9: when the batch is some non-terminating events followed by a
terminating event and then anything at all, the frame's outcome does not
depend on the trailing events: the button and resize fields are frozen at
their values when the terminating event was matched (the fold over the
leading events), the points are untouched, and no reacquisition, render,
swap or print happens. -/
theorem terminating_event_discards_rest (s : LoopState)
    (es1 es2 : List WindowEvent) (e : WindowEvent) (raOk renOk : Bool)
    (h1 : ∀ x ∈ es1, isTerminate x = false) (h2 : isTerminate e = true) :
    runFrame s ⟨es1 ++ e :: es2, raOk, renOk⟩ =
      some (⟨s.points,
             (es1.foldl applyEvent
               ⟨sentinel, s.left_button_pressed, s.resize⟩).left_button_pressed,
             (es1.foldl applyEvent
               ⟨sentinel, s.left_button_pressed, s.resize⟩).resize⟩,
            ⟨0, false, false, none⟩, false) := by
  have hp := processEvents_terminate es1 es2 e
    ⟨sentinel, s.left_button_pressed, s.resize⟩ h1 h2
  simp only [runFrame, hp, if_true]

/-- Witness for C9: a press, then Close, then a CursorPos: the press is
kept, the cursor event after Close is dropped and no point is recorded. -/
theorem terminating_event_discards_rest_witness :
    runFrame ⟨[], false, false⟩
        ⟨[WindowEvent.MouseButton .Button1 .Press 0] ++
            WindowEvent.Close :: [WindowEvent.CursorPos 5 5], true, true⟩ =
      some (⟨[],
             ([WindowEvent.MouseButton .Button1 .Press 0].foldl applyEvent
               ⟨sentinel, false, false⟩).left_button_pressed,
             ([WindowEvent.MouseButton .Button1 .Press 0].foldl applyEvent
               ⟨sentinel, false, false⟩).resize⟩,
            ⟨0, false, false, none⟩, false) :=
  terminating_event_discards_rest ⟨[], false, false⟩
    [WindowEvent.MouseButton .Button1 .Press 0] [WindowEvent.CursorPos 5 5]
    WindowEvent.Close true true (by decide) rfl

/-- C10: if the resize flag is up after event processing and the mid-loop
back-buffer reacquisition fails, the frame panics (the `unwrap` aborts the
process) instead of breaking out of the loop; a failing render pass, by
contrast, breaks out gracefully. -/
theorem reacquire_failure_panics (s : LoopState) (f g : FrameInput)
    (hterm : ∀ e ∈ f.events, isTerminate e = false)
    (hres : frameResize s f = true) (hra : f.reacquireOk = false)
    (hgterm : ∀ e ∈ g.events, isTerminate e = false)
    (hgra : g.reacquireOk = true) (hgren : g.renderOk = false) :
    runFrame s f = none ∧
    ∃ s' eff, runFrame s g = some (s', eff, false) := by
  constructor
  · rw [runFrame_no_term s f hterm, if_pos hres, if_neg (by simp [hra])]
  · have h := runFrame_render s g hgterm hgra
    rw [hgren] at h
    exact ⟨_, _, h⟩

/-- Witness for C10: a resize event with a failing reacquisition panics,
while a failing render pass merely stops the loop. -/
theorem reacquire_failure_panics_witness :
    runFrame ⟨[], false, false⟩ ⟨[WindowEvent.FramebufferSize 1 1], false, true⟩ =
      none ∧
    ∃ s' eff, runFrame ⟨[], false, false⟩ ⟨[], true, false⟩ = some (s', eff, false) :=
  reacquire_failure_panics ⟨[], false, false⟩
    ⟨[WindowEvent.FramebufferSize 1 1], false, true⟩ ⟨[], true, false⟩
    (by decide) rfl rfl (by decide) rfl rfl

/-- C7: over any run of the loop that does not panic, the points sequence
is append-only: the starting points are a prefix of the final points (so
every element survives, unchanged and in order) and the length never
decreases. -/
theorem points_append_only (s : LoopState) (frames : List FrameInput)
    (r : LoopState × LoopStatus) (h : runLoop s frames = some r) :
    (∃ t, r.1.points = s.points ++ t) ∧ s.points.length ≤ r.1.points.length := by
  suffices hpre : ∃ t, r.1.points = s.points ++ t by
    obtain ⟨t, ht⟩ := hpre
    exact ⟨⟨t, ht⟩, by rw [ht]; simp⟩
  induction frames generalizing s with
  | nil =>
      simp only [runLoop] at h
      obtain rfl := Option.some.inj h
      exact ⟨[], by simp⟩
  | cons f fs ih =>
      simp only [runLoop] at h
      cases hrf : runFrame s f with
      | none => rw [hrf] at h; exact absurd h (by simp)
      | some x =>
          obtain ⟨s1, eff, cont⟩ := x
          simp only [hrf] at h
          obtain ⟨t1, ht1⟩ := runFrame_points_mono s f s1 eff cont hrf
          cases cont with
          | true =>
              rw [if_pos rfl] at h
              obtain ⟨t2, ht2⟩ := ih s1 h
              exact ⟨t1 ++ t2, by rw [ht2, ht1, List.append_assoc]⟩
          | false =>
              rw [if_neg Bool.false_ne_true] at h
              obtain rfl := Option.some.inj h
              exact ⟨t1, ht1⟩

/-- Witness for C7: one quiet successful frame keeps the pre-existing
point and the length does not decrease. -/
theorem points_append_only_witness :
    (∃ t, (⟨[((1 : ℚ), (2 : ℚ))], false, false⟩ : LoopState).points =
      (⟨[((1 : ℚ), (2 : ℚ))], false, true⟩ : LoopState).points ++ t) ∧
    (⟨[((1 : ℚ), (2 : ℚ))], false, true⟩ : LoopState).points.length ≤
      (⟨[((1 : ℚ), (2 : ℚ))], false, false⟩ : LoopState).points.length :=
  points_append_only ⟨[(1, 2)], false, true⟩ [⟨[], true, true⟩]
    (⟨[(1, 2)], false, false⟩, .running) rfl

/-- Counterexample to C5 as stated: with construction succeeding and the
render pass failing on the very first frame, the loop breaks and `main`
returns normally, so the process exit status is 0, not nonzero.  The
second conjunct shows that this run's frame did fail its render pass and
stopped the loop. -/
theorem render_failure_exit_code_zero :
    exitCode (mainRun true true true true [⟨[], true, false⟩]) = 0 ∧
    runLoop ⟨[], false, false⟩ [⟨[], true, false⟩] =
      some (⟨[], false, false⟩, .terminated) := by
  exact ⟨rfl, rfl⟩

/-- C5 (amended): the process exits with status 0 whenever the loop stops
on its own — user-initiated close and render-pass failure alike — and
terminates abnormally (panic, nonzero status) exactly when construction
(surface, program, mesh, initial back buffer) fails or a mid-loop
back-buffer reacquisition panics. -/
theorem exit_status_by_cause (sOk pOk mOk bOk : Bool) (frames : List FrameInput) :
    (¬(sOk = true ∧ pOk = true ∧ mOk = true ∧ bOk = true) →
      exitCode (mainRun sOk pOk mOk bOk frames) ≠ 0) ∧
    (∀ r, runLoop ⟨[], false, false⟩ frames = some r →
      exitCode (mainRun true true true true frames) = 0) ∧
    (runLoop ⟨[], false, false⟩ frames = none →
      mainRun true true true true frames = ExitStatus.panicAbort) := by
  refine ⟨?_, ?_, ?_⟩
  · intro hc
    simp only [mainRun, if_neg hc]
    decide
  · intro r hr
    simp only [mainRun, hr]
    simp [exitCode]
  · intro hn
    simp only [mainRun, hn]
    simp

/-- Witness for C5 (amended): a failed surface creation exits nonzero; a
run whose only frame sees a Close event exits 0. -/
theorem exit_status_by_cause_witness :
    exitCode (mainRun false true true true []) ≠ 0 ∧
    exitCode (mainRun true true true true [⟨[WindowEvent.Close], true, true⟩]) = 0 := by
  refine ⟨(exit_status_by_cause false true true true []).1 (by simp), ?_⟩
  exact (exit_status_by_cause true true true true
      [⟨[WindowEvent.Close], true, true⟩]).2.1
    (⟨[], false, false⟩, .terminated) rfl

end Sketched
